import Mathlib

/-!
Verification development for the Thumper sample extractor's binary decoder
(src/file_parser.py, src/leaf_parser.py, src/thumper_sample_extractor.py).
The Python modules are shallowly embedded: the byte cursor becomes a state
passed explicitly (a reader is a function from the remaining byte list to
either a decode error or a value paired with the remaining bytes), Python
ints become Int, four-byte floats are kept as their little-endian bit
pattern (no float arithmetic occurs anywhere in the decoder), and Python
strings read from the file are kept as their UTF-8 byte lists.
-/

/-- A byte buffer: the bytes not yet consumed by the cursor. -/
abbrev Bytes := List Nat

/-- The ways a decode can fail.  Each constructor models a concrete Python
exception: struct.error for a wrong-sized buffer slice, UnicodeDecodeError,
KeyError on a dispatch dictionary, the TypeError raised by
file_parser.read_data_point for an unsupported trait type, the TypeError
from calling None, IndexError, UnboundLocalError, ValueError from list
destructuring, TypeError from splatting None, and NameError for a
reference to a function that is never defined. -/
inductive Err where
  | truncated
  | invalidText
  | keyError (k : String)
  | keyErrorInt (k : Int)
  | unsupportedTraitType (t : Int)
  | noneNotCallable
  | indexError
  | unboundLocal (n : String)
  | valueError
  | typeError
  | nameError (n : String)
  | outOfFuel
deriving DecidableEq

/-- A reader over the forward-only byte cursor. -/
abbrev Rd (α : Type) : Type := Bytes → Except Err (α × Bytes)

instance : Monad Rd where
  pure a := fun buf => .ok (a, buf)
  bind p f := fun buf =>
    match p buf with
    | .error e => .error e
    | .ok (a, rest) => f a rest

/-- Raising a Python exception. -/
def throwRd (e : Err) : Rd α := fun _ => .error e

@[simp] theorem bind_apply {α β : Type} (p : Rd α) (f : α → Rd β) (buf : Bytes) :
    (p >>= f) buf =
      match p buf with
      | .error e => .error e
      | .ok (a, rest) => f a rest := rfl

@[simp] theorem pure_apply {α : Type} (a : α) (buf : Bytes) :
    (pure a : Rd α) buf = .ok (a, buf) := rfl

@[simp] theorem throwRd_apply {α : Type} (e : Err) (buf : Bytes) :
    (throwRd e : Rd α) buf = .error e := rfl

/-- Little-endian unsigned value of a byte list. -/
def leU (bs : Bytes) : Nat := bs.foldr (fun b acc => b + 256 * acc) 0

/-- Signed 32-bit value of a 4-byte little-endian slice. -/
def intOfLe4 (bs : Bytes) : Int :=
  if leU bs < 2147483648 then (leU bs : Int) else (leU bs : Int) - 4294967296

/-- Signed 16-bit value of a 2-byte little-endian slice. -/
def shortOfLe2 (bs : Bytes) : Int :=
  if leU bs < 32768 then (leU bs : Int) else (leU bs : Int) - 65536

/-- file_parser.read_int: struct.unpack of format i from file.read(4).
struct.error when fewer than 4 bytes remain. -/
def read_int : Rd Int := fun buf =>
  if (buf.take 4).length = 4 then .ok (intOfLe4 (buf.take 4), buf.drop 4)
  else .error .truncated

/-- file_parser.read_short: the source reads FOUR bytes but unpacks the
two-byte format h, so struct.unpack succeeds only when the file had exactly
two bytes left (file.read(4) then returns just those two). -/
def read_short : Rd Int := fun buf =>
  if (buf.take 4).length = 2 then .ok (shortOfLe2 (buf.take 4), buf.drop 4)
  else .error .truncated

/-- file_parser.read_float: the four raw bytes are kept as the float's
little-endian bit pattern; the decoder never computes with float values. -/
def read_float : Rd Nat := fun buf =>
  if (buf.take 4).length = 4 then .ok (leU (buf.take 4), buf.drop 4)
  else .error .truncated

/-- file_parser.read_bool: struct.unpack of format ? from file.read(1):
any nonzero byte is True. -/
def read_bool : Rd Bool := fun buf =>
  if (buf.take 1).length = 1 then .ok (buf.headD 0 != 0, buf.drop 1)
  else .error .truncated

/-- BufferedReader.read(size): returns min(size, remaining) bytes without
error; size -1 reads to the end of the file, any other negative size
raises ValueError (read length must be non-negative or -1). -/
def pyRead (size : Int) : Rd Bytes := fun buf =>
  if size = -1 then .ok (buf, [])
  else if size < 0 then .error .valueError
  else .ok (buf.take size.toNat, buf.drop size.toNat)

/-- UTF-8 validity as checked by bytes.decode(). -/
def utf8Valid : Bytes → Bool
  | [] => true
  | b :: rest =>
    if b < 0x80 then utf8Valid rest
    else if b < 0xc2 then false
    else if b < 0xe0 then
      match rest with
      | c1 :: r => decide (0x80 ≤ c1) && decide (c1 < 0xc0) && utf8Valid r
      | [] => false
    else if b = 0xe0 then
      match rest with
      | c1 :: c2 :: r =>
        decide (0xa0 ≤ c1) && decide (c1 < 0xc0) &&
        decide (0x80 ≤ c2) && decide (c2 < 0xc0) && utf8Valid r
      | _ => false
    else if b = 0xed then
      match rest with
      | c1 :: c2 :: r =>
        decide (0x80 ≤ c1) && decide (c1 < 0xa0) &&
        decide (0x80 ≤ c2) && decide (c2 < 0xc0) && utf8Valid r
      | _ => false
    else if b < 0xf0 then
      match rest with
      | c1 :: c2 :: r =>
        decide (0x80 ≤ c1) && decide (c1 < 0xc0) &&
        decide (0x80 ≤ c2) && decide (c2 < 0xc0) && utf8Valid r
      | _ => false
    else if b = 0xf0 then
      match rest with
      | c1 :: c2 :: c3 :: r =>
        decide (0x90 ≤ c1) && decide (c1 < 0xc0) &&
        decide (0x80 ≤ c2) && decide (c2 < 0xc0) &&
        decide (0x80 ≤ c3) && decide (c3 < 0xc0) && utf8Valid r
      | _ => false
    else if b < 0xf4 then
      match rest with
      | c1 :: c2 :: c3 :: r =>
        decide (0x80 ≤ c1) && decide (c1 < 0xc0) &&
        decide (0x80 ≤ c2) && decide (c2 < 0xc0) &&
        decide (0x80 ≤ c3) && decide (c3 < 0xc0) && utf8Valid r
      | _ => false
    else if b = 0xf4 then
      match rest with
      | c1 :: c2 :: c3 :: r =>
        decide (0x80 ≤ c1) && decide (c1 < 0x90) &&
        decide (0x80 ≤ c2) && decide (c2 < 0xc0) &&
        decide (0x80 ≤ c3) && decide (c3 < 0xc0) && utf8Valid r
      | _ => false
    else false

/-- file_parser.read_string: a 4-byte length prefix, then that many bytes
decoded as UTF-8.  BufferedReader.read returns the AVAILABLE bytes at end
of file, so a size prefix larger than the remaining buffer yields a
silently shortened (but still decoded) string. -/
def read_string : Rd Bytes := do
  let size ← read_int
  let bs ← pyRead size
  if utf8Valid bs then pure bs else throwRd .invalidText

/-- Lowercase hex digit. -/
def hexDigitChar (n : Nat) : Char :=
  if n < 10 then Char.ofNat (48 + n) else Char.ofNat (87 + n)

/-- bytes.hex(): two lowercase hex digits per byte. -/
def byteHex (b : Nat) : List Char := [hexDigitChar (b / 16 % 16), hexDigitChar (b % 16)]

/-- Hex string of a byte list, as bytes.hex() renders it. -/
def bytesHexStr (bs : Bytes) : String :=
  String.mk (bs.foldr (fun b acc => byteHex b ++ acc) [])

/-- file_parser.read_hash: file.read(4), byte-reverse, lowercase hex.
file.read returns whatever is available, so fewer than four remaining
bytes give a shorter hex string without any error. -/
def read_hash : Rd String := fun buf =>
  .ok (bytesHexStr (buf.take 4).reverse, buf.drop 4)

/-- A 3-float vector, each float kept as its bit pattern. -/
abbrev Vec3 := Nat × Nat × Nat

/-- file_parser.read_vector. -/
def read_vector : Rd Vec3 := do
  let x ← read_float
  let y ← read_float
  let z ← read_float
  pure (x, y, z)

/-- file_parser.read_color: r, g, b, a. -/
def read_color : Rd (Nat × Nat × Nat × Nat) := do
  let r ← read_float
  let g ← read_float
  let b ← read_float
  let a ← read_float
  pure (r, g, b, a)

/-- The transform record built by file_parser.read_transform. -/
structure Transform where
  pos : Vec3
  rot_x : Vec3
  rot_y : Vec3
  rot_z : Vec3
  scale : Vec3
deriving DecidableEq

/-- file_parser.read_transform. -/
def read_transform : Rd Transform := do
  let p ← read_vector
  let rx ← read_vector
  let ry ← read_vector
  let rz ← read_vector
  let s ← read_vector
  pure ⟨p, rx, ry, rz, s⟩

/-- The value returned by file_parser.read_file_path: the bare string when
the root index is 0, the (root index, string) pair otherwise. -/
inductive FPath where
  | bare (s : Bytes)
  | rooted (r : Int) (s : Bytes)
deriving DecidableEq

/-- file_parser.read_file_path. -/
def read_file_path : Rd FPath := do
  let root_index ← read_int
  let fp ← read_string
  pure (if root_index = 0 then .bare fp else .rooted root_index fp)

/-- Running a reader a fixed number of times, in order (a count-prefixed
list body in the source). -/
def replicateP (n : Nat) (p : Rd α) : Rd (List α) :=
  match n with
  | 0 => pure []
  | n + 1 => do
    let x ← p
    let xs ← replicateP n p
    pure (x :: xs)

/-- Result of a component reader.  Animation and edit-state return an empty
record; the approach-animation component retains its beat count; the
transform component retains name, constraint and transform;
read_draw_component has no return statement, so in Python it returns None. -/
inductive CompVal where
  | empty
  | approach (beats : Int)
  | xfm (nm : Bytes) (constraint : Bytes) (t : Transform)
  | noneV
deriving DecidableEq

/-- file_parser.read_animation_component. -/
def read_animation_component : Rd CompVal := do
  let _version ← read_int
  let _frame ← read_float
  let _unit_of_time ← read_string
  pure .empty

/-- file_parser.read_edit_state_component. -/
def read_edit_state_component : Rd CompVal :=
  pure .empty

/-- file_parser.read_approach_animation_component. -/
def read_approach_animation_component : Rd CompVal := do
  let _version ← read_int
  let _frame ← read_float
  let _unit_of_time ← read_string
  let _approach_version ← read_int
  let num_approach_beats ← read_int
  pure (.approach num_approach_beats)

/-- file_parser.read_transform_component. -/
def read_transform_component : Rd CompVal := do
  let _version ← read_int
  let parent_name ← read_string
  let constraint ← read_string
  let t ← read_transform
  pure (.xfm parent_name constraint t)

/-- file_parser.read_draw_component: consumes its fields and a child-name
list, and falls off the end of the function (returns None). -/
def read_draw_component : Rd CompVal := do
  let _version ← read_int
  let _is_visible ← read_bool
  let _draw_layer ← read_string
  let _render_bucket ← read_string
  let num_draw_children ← read_int
  let _ ← replicateP num_draw_children.toNat read_string
  pure .noneV

/-- file_parser.component_readers, in source dictionary order. -/
def component_readers : List (String × Rd CompVal) :=
  [("63259f0a", read_animation_component),
   ("3c8efb12", read_edit_state_component),
   ("6c2d3373", read_approach_animation_component),
   ("84e761eb", read_transform_component),
   ("f92719ee", read_draw_component)]

/-- file_parser.read_component: hash-dispatched component read; a missing
key raises KeyError. -/
def read_component : Rd CompVal := do
  let marker ← read_hash
  match component_readers.lookup marker with
  | none => throwRd (.keyError marker)
  | some rdr => rdr

/-- file_parser.read_components. -/
def read_components : Rd (List CompVal) := do
  let n ← read_int
  replicateP n.toNat read_component

/-- A trait-path segment: a hash, with an index unless the wire index
is -1. -/
inductive Seg where
  | plain (h : String)
  | idx (h : String) (i : Int)
deriving DecidableEq

/-- One iteration of the loop in file_parser.read_trait_path. -/
def read_trait_path_member : Rd Seg := do
  let member ← read_hash
  let member_index ← read_int
  pure (if member_index = -1 then .plain member else .idx member member_index)

/-- file_parser.read_trait_path. -/
def read_trait_path : Rd (List Seg) := do
  let n ← read_int
  replicateP n.toNat read_trait_path_member

/-- A decoded data-point payload: Int, Bool, Float or Color. -/
inductive DPVal where
  | i (n : Int)
  | b (v : Bool)
  | f (bits : Nat)
  | c (r g bl a : Nat)
deriving DecidableEq

/-- file_parser.data_point_readers: the 20-entry table, None for the 15
trait types without a payload decoder (index 8, kTraitAction, reuses the
bool reader). -/
def data_point_readers : List (Option (Rd DPVal)) :=
  [some (do let v ← read_int; pure (DPVal.i v)),
   some (do let v ← read_bool; pure (DPVal.b v)),
   some (do let v ← read_float; pure (DPVal.f v)),
   some (do let v ← read_color; pure (DPVal.c v.1 v.2.1 v.2.2.1 v.2.2.2)),
   none, none, none, none,
   some (do let v ← read_bool; pure (DPVal.b v)),
   none, none, none, none, none, none, none, none, none, none, none]

/-- Python list indexing: negative indexes count from the end; anything
else out of range raises IndexError (modelled by the none result). -/
def pyIndex (xs : List α) (index : Int) : Option α :=
  if index < 0 then
    if (0 : Int) ≤ (xs.length : Int) + index then xs.get? ((xs.length : Int) + index).toNat
    else none
  else xs.get? index.toNat

/-- file_parser.read_data_point: the table is consulted FIRST, so an
unsupported trait type raises its TypeError before any byte is read;
otherwise time, payload and the two method strings are consumed. -/
def read_data_point (trait_type : Int) : Rd (Nat × DPVal) := fun buf =>
  match pyIndex data_point_readers trait_type with
  | none => .error .indexError
  | some none => .error (.unsupportedTraitType trait_type)
  | some (some rdr) =>
    (do
      let time ← read_float
      let v ← rdr
      let _interpolation_method ← read_string
      let _easing_method ← read_string
      pure (time, v) : Rd (Nat × DPVal)) buf

/-- Whether a float32 bit pattern is a NaN (exponent bits all ones and a
nonzero mantissa). -/
def isNaN32 (b : Nat) : Bool :=
  decide (b / 8388608 % 256 = 255) && decide (b % 8388608 ≠ 0)

/-- Whether a float32 bit pattern is a zero (positive 0x00000000 or
negative 0x80000000: everything but the sign bit clear). -/
def isZero32 (b : Nat) : Bool :=
  decide (b % 2147483648 = 0)

/-- Python float equality on float32 bit patterns, as the == used by dict
key matching on the floats struct.unpack produces: a NaN equals nothing
(not even a bit-identical NaN), +0.0 equals -0.0, and every other float32
value has a unique bit pattern.  (CPython's dict also tries an identity
check first, but each struct.unpack call returns a fresh float object, so
across distinct data points only == can match.) -/
def pyFloatEq (a b : Nat) : Bool :=
  !isNaN32 a && !isNaN32 b && (a == b || (isZero32 a && isZero32 b))

/-- Python dict insertion with float keys: the first entry whose key
compares == to the new key has its value overwritten in place — the
ORIGINAL key object is kept, as in CPython — and otherwise the new
(key, value) pair is appended.  NaN keys never match, so every NaN-timed
point appends a fresh entry. -/
def dictInsert : List (Nat × DPVal) → Nat → DPVal → List (Nat × DPVal)
  | [], k, v => [(k, v)]
  | p :: ps, k, v => if pyFloatEq p.1 k then (p.1, v) :: ps else p :: dictInsert ps k v

/-- Python dict lookup with float keys (none models KeyError; a NaN key
is never found). -/
def dictLookup : List (Nat × DPVal) → Nat → Option DPVal
  | [], _ => none
  | p :: ps, k => if pyFloatEq p.1 k then some p.2 else dictLookup ps k

/-- The dict-building loop shared by file_parser.read_data_points and
leaf_parser.read_data_points: each parsed point is stored under its time
key. -/
def dict_points_loop (p : Rd (Nat × DPVal)) :
    Nat → List (Nat × DPVal) → Rd (List (Nat × DPVal))
  | 0, acc => pure acc
  | n + 1, acc => do
    let dp ← p
    dict_points_loop p n (dictInsert acc dp.1 dp.2)

/-- file_parser.read_data_points. -/
def read_data_points (trait_type : Int) : Rd (List (Nat × DPVal)) := do
  let n ← read_int
  dict_points_loop (read_data_point trait_type) n.toNat []

/-- file_parser.trait_type_names. -/
def trait_type_names : List String :=
  ["kTraitInt", "kTraitBool", "kTraitFloat", "kTraitColor", "kTraitObj",
   "kTraitVec3", "kTraitPath", "kTraitEnum", "kTraitAction", "kTraitObjVec",
   "kTraitString", "kTraitCue", "kTraitEvent", "kTraitSym", "kTraitList",
   "kTraitTraitPath", "kTraitQuat", "kTraitChildLib", "kTraitComponent",
   "kNumTraitTypes"]

/-- Conversion int(b) applied to the footer booleans. -/
def boolInt (b : Bool) : Int := if b then 1 else 0

/-- The record built by file_parser.read_sequencer_object (the ui-elements
mapping and the trailing unknown boolean are parsed but not retained). -/
structure SeqObj where
  obj_name : Bytes
  param_path : Seg
  trait_type : String
  data_points : List (Nat × DPVal)
  line_animation_type : Int
  default_trait_easing_method : Int
  default_trait_interpolation_method : Int
  unused_1 : Int
  unused_2 : Int
  intensity_operation_1 : Bytes
  intensity_operation_2 : Bytes
  has_intensity_phase : Int
  trait_setter_op : Int
  step_frequency : Int
  unused_3 : Nat
  unused_4 : Nat × Nat × Nat × Nat
  intensity_scale : Int
  unused_5 : Int
deriving DecidableEq

/-- file_parser.read_sequencer_object.  The record dict is built after all
reads; trait_path[0] and trait_type_names[trait_type] can each raise
IndexError at that point. -/
def read_sequencer_object : Rd SeqObj := do
  let object_name ← read_string
  let trait_path ← read_trait_path
  let trait_type ← read_int
  let data_points ← read_data_points trait_type
  let _ui_elements ← read_data_points trait_type
  let line_animation_type ← read_int
  let default_trait_interpolation_method ← read_int
  let default_trait_easing_method ← read_int
  let unused_1 ← read_int
  let unused_2 ← read_int
  let intensity_operation_1 ← read_string
  let intensity_operation_2 ← read_string
  let has_intensity_phase ← read_bool
  let trait_setter_op ← read_bool
  let step_frequency ← read_int
  let unused_3 ← read_float
  let unused_4 ← read_color
  let intensity_scale ← read_bool
  let unused_5 ← read_bool
  let _unknown ← read_bool
  match trait_path.head? with
  | none => throwRd .indexError
  | some seg =>
    match pyIndex trait_type_names trait_type with
    | none => throwRd .indexError
    | some tname =>
      pure { obj_name := object_name, param_path := seg, trait_type := tname,
             data_points := data_points,
             line_animation_type := line_animation_type,
             default_trait_easing_method := default_trait_easing_method,
             default_trait_interpolation_method := default_trait_interpolation_method,
             unused_1 := unused_1, unused_2 := unused_2,
             intensity_operation_1 := intensity_operation_1,
             intensity_operation_2 := intensity_operation_2,
             has_intensity_phase := boolInt has_intensity_phase,
             trait_setter_op := boolInt trait_setter_op,
             step_frequency := step_frequency, unused_3 := unused_3,
             unused_4 := unused_4, intensity_scale := boolInt intensity_scale,
             unused_5 := boolInt unused_5 }

/-- file_parser.read_sequencer_objects. -/
def read_sequencer_objects : Rd (List SeqObj) := do
  let n ← read_int
  replicateP n.toNat read_sequencer_object

/-- The record built by file_parser.read_leaf. -/
structure LeafRec where
  obj_name : Bytes
  seq_objs : List SeqObj
  beat_cnt : Int
deriving DecidableEq

/-- file_parser.read_leaf. -/
def read_leaf (nm : Bytes) : Rd LeafRec := do
  let _sequin_leaf_version ← read_int
  let _trait_anim_version ← read_int
  let _obj_version ← read_int
  let _components ← read_components
  let sequencer_objects ← read_sequencer_objects
  let num_beats ← read_int
  let _path_phase ← read_float
  let _tile_phase ← read_float
  let _ ← replicateP num_beats.toNat read_vector
  let _turn_lane_offset ← read_int
  pure { obj_name := nm, seq_objs := sequencer_objects, beat_cnt := num_beats }

/-- file_parser.read_global_library. -/
def read_global_library : Rd Unit := do
  let _unknown ← read_int
  let _library_name ← read_string
  pure ()

/-- file_parser.read_global_libraries. -/
def read_global_libraries : Rd (List Unit) := do
  let n ← read_int
  replicateP n.toNat read_global_library

/-- file_parser.read_level_external_object. -/
def read_level_external_object : Rd Unit := do
  let _object_type ← read_hash
  let _object_name ← read_string
  let _unknown ← read_int
  pure ()

/-- file_parser.read_level_external_objects. -/
def read_level_external_objects : Rd (List Unit) := do
  let n ← read_int
  replicateP n.toNat read_level_external_object

/-- The record built by file_parser.read_lvl_grouping. -/
structure GroupRec where
  lvl_name : Bytes
  gate_name : Bytes
  checkpoint : Bool
  checkpoint_leader_lvl_name : Bytes
  rest_lvl_name : Bytes
  play_plus : Bool
deriving DecidableEq

/-- file_parser.read_lvl_grouping. -/
def read_lvl_grouping : Rd GroupRec := do
  let lvl_object_name ← read_string
  let gate_object_name ← read_string
  let has_checkpoint ← read_bool
  let checkpoint_leader ← read_string
  let rest_lvl ← read_string
  let _unknown_1 ← read_bool
  let _unknown_2 ← read_bool
  let _unknown_3 ← read_int
  let _unknown_4 ← read_bool
  let is_in_play_plus ← read_bool
  pure { lvl_name := lvl_object_name, gate_name := gate_object_name,
         checkpoint := has_checkpoint,
         checkpoint_leader_lvl_name := checkpoint_leader,
         rest_lvl_name := rest_lvl, play_plus := is_in_play_plus }

/-- file_parser.read_lvl_groupings. -/
def read_lvl_groupings : Rd (List GroupRec) := do
  let n ← read_int
  replicateP n.toNat read_lvl_grouping

/-- ASCII byte list of a Lean string literal (used for the hard-coded
skybox name and for concrete fixtures). -/
def asciiBytes (s : String) : Bytes := s.toList.map Char.toNat

/-- The record built by file_parser.read_master (the skybox name is
hard-coded in the source). -/
structure MasterRec where
  obj_name : Bytes
  skybox_name : Bytes
  intro_lvl_name : Bytes
  groupings : List GroupRec
  checkpoint_lvl_name : Bytes
deriving DecidableEq

/-- file_parser.read_master. -/
def read_master (nm : Bytes) : Rd MasterRec := do
  let _sequin_master_version ← read_int
  let _sequencer_objects_version ← read_int
  let _obj_version ← read_int
  let _components ← read_components
  let _sequencer_objects ← read_sequencer_objects
  let _min_end_frame ← read_float
  let _skybox_object_name ← read_string
  let intro_lvl_obj_name ← read_string
  let lvl_groupings ← read_lvl_groupings
  let _unknown_1 ← read_bool
  let _unknown_2 ← read_bool
  let _unknown_3 ← read_int
  let _unknown_4 ← read_int
  let _unknown_5 ← read_int
  let _unknown_6 ← read_int
  let _unknown_7 ← read_vector
  let checkpoint_lvl ← read_string
  let _unknown_8 ← read_string
  pure { obj_name := nm, skybox_name := asciiBytes "skybox_cube",
         intro_lvl_name := intro_lvl_obj_name, groupings := lvl_groupings,
         checkpoint_lvl_name := checkpoint_lvl }

/-- The record built by file_parser.read_step on its one successful path. -/
structure StepRec where
  beat_cnt : Int
  leaf_name : Bytes
  main_path : Bytes
  sub_paths : List (Bytes × Bytes)
  xfm : Transform
deriving DecidableEq

/-- One iteration of the sub-path loop in file_parser.read_step. -/
def read_sub_path : Rd (Bytes × Bytes) := do
  let unknown_3 ← read_string
  let unknown_4 ← read_string
  pure (unknown_3, unknown_4)

/-- Lines 370 to 374 of file_parser.read_step: the unconditional reads that
follow the conditional block (step type, offset, transform, two bools). -/
def read_step_tail : Rd (Bytes × Int × Transform × Bool × Bool) := do
  let step_type ← read_string
  let offset ← read_int
  let t ← read_transform
  let unknown_5 ← read_bool
  let unknown_6 ← read_bool
  pure (step_type, offset, t, unknown_5, unknown_6)

/-- Lines 363 to 369 of file_parser.read_step: the reads performed after
the sequin string is (or is not) read. -/
def read_step_skip_rest : Rd (Bytes × List (Bytes × Bytes)) := do
  let unknown_2 ← read_string
  let num_sub_paths ← read_int
  let sub_paths ← replicateP num_sub_paths.toNat read_sub_path
  pure (unknown_2, sub_paths)

/-- The local-variable bindings of file_parser.read_step: each Option is
none exactly when the corresponding Python local is never assigned
(num_beats, sequin, unknown_2, sub_paths). -/
def read_step_locals :
    Rd (Option Int × Option Bytes × Option Bytes × Option (List (Bytes × Bytes))) := do
  let unknown_1 ← read_string
  if unknown_1 = [] then do
    let num_beats ← read_int
    let should_skip_sequin ← read_bool
    if should_skip_sequin then do
      let (unknown_2, sub_paths) ← read_step_skip_rest
      pure (some num_beats, none, some unknown_2, some sub_paths)
    else do
      let sequin ← read_string
      let (unknown_2, sub_paths) ← read_step_skip_rest
      pure (some num_beats, some sequin, some unknown_2, some sub_paths)
  else
    pure (none, none, none, none)

/-- file_parser.read_step.  The return dict is evaluated after the tail
reads; accessing an unassigned local there raises UnboundLocalError, first
for num_beats, then for sequin. -/
def read_step : Rd StepRec := do
  let (num_beats?, sequin?, unknown_2?, sub_paths?) ← read_step_locals
  let (_step_type, _offset, t, _u5, _u6) ← read_step_tail
  match num_beats? with
  | none => throwRd (.unboundLocal "num_beats")
  | some num_beats =>
    match sequin?, unknown_2?, sub_paths? with
    | some sequin, some unknown_2, some sub_paths =>
      pure { beat_cnt := num_beats, leaf_name := sequin,
             main_path := unknown_2, sub_paths := sub_paths, xfm := t }
    | _, _, _ => throwRd (.unboundLocal "sequin")

/-- The while-loop of file_parser.read_steps, with explicit fuel.  Each
iteration consumes at least the one leading bool byte, so fuel equal to
the buffer length plus one can never run out. -/
def read_stepsF : Nat → Rd (List StepRec)
  | 0 => throwRd .outOfFuel
  | fuel + 1 => do
    let b ← read_bool
    if b then do
      let s ← read_step
      let ss ← read_stepsF fuel
      pure (s :: ss)
    else
      pure []

/-- file_parser.read_steps: the sentinel-terminated step list. -/
def read_steps : Rd (List StepRec) := fun buf =>
  read_stepsF (buf.length + 1) buf

/-- The record built by file_parser.read_loop (the channel name slot is
read with read_int in the source). -/
structure LoopRec where
  samp_name : Bytes
  beats_per_loop : Int
deriving DecidableEq

/-- file_parser.read_loop. -/
def read_loop : Rd LoopRec := do
  let samp_object_name ← read_string
  let num_beats_per_loop ← read_int
  let _ch_object_name ← read_int
  pure { samp_name := samp_object_name, beats_per_loop := num_beats_per_loop }

/-- file_parser.read_loops. -/
def read_loops : Rd (List LoopRec) := do
  let n ← read_int
  replicateP n.toNat read_loop

/-- The record built by file_parser.read_lvl; the first component's record
is splatted into it. -/
structure LvlRec where
  obj_name : Bytes
  approach : CompVal
  seq_objs : List SeqObj
  leaf_seq : List StepRec
  loops : List LoopRec
  volume : Nat
  input_allowed : Bool
  tutorial_type : Bytes
  start_angle_fracs : Vec3
deriving DecidableEq

/-- file_parser.read_lvl.  The component list is destructured into exactly
two names (ValueError otherwise); splatting a None first component at the
end raises TypeError. -/
def read_lvl (nm : Bytes) : Rd LvlRec := do
  let _sequin_lvl_version ← read_int
  let _sequencer_objects_version ← read_int
  let _obj_version ← read_int
  let comps ← read_components
  match comps with
  | [approach_animation_component, _edit_state_component] => do
    let sequencer_objects ← read_sequencer_objects
    let _min_end_frame ← read_float
    let _move_type ← read_string
    let _move_sequin ← read_string
    let steps ← read_steps
    let loops ← read_loops
    let _unknown_1 ← read_bool
    let volume ← read_float
    let _start_flow ← read_string
    let _start_flow_trait_path ← read_trait_path
    let _start_flow_trait_type ← read_string
    let is_input_allowed ← read_bool
    let tutorial_type ← read_string
    let start_angle_fracs ← read_vector
    if approach_animation_component = CompVal.noneV then throwRd .typeError
    else
      pure { obj_name := nm, approach := approach_animation_component,
             seq_objs := sequencer_objects, leaf_seq := steps, loops := loops,
             volume := volume, input_allowed := is_input_allowed,
             tutorial_type := tutorial_type,
             start_angle_fracs := start_angle_fracs }
  | _ => throwRd .valueError

/-- file_parser.read_boss_pattern. -/
def read_boss_pattern : Rd Unit := do
  let _gate_level_script_node ← read_hash
  let _boss_pattern_lvl_name ← read_string
  let _unknown_1 ← read_bool
  let _gate_sentry_type ← read_string
  let _unknown_2 ← read_float
  let _bucket_num ← read_int
  pure ()

/-- file_parser.read_boss_patterns. -/
def read_boss_patterns : Rd (List Unit) := do
  let n ← read_int
  replicateP n.toNat read_boss_pattern

/-- file_parser.read_gate: a stub reader, consumes its layout and returns
an empty record. -/
def read_gate (_nm : Bytes) : Rd Unit := do
  let _sequin_gate_version ← read_int
  let _obj_version ← read_int
  let _components ← read_components
  let _spn_obj_name ← read_string
  let _ent_trait_path ← read_trait_path
  let _boss_patterns ← read_boss_patterns
  let _pre_boss_lvl_name ← read_string
  let _post_boss_lvl_name ← read_string
  let _restart_lvl_name ← read_string
  let _unknown_1 ← read_string
  let _component_type ← read_string
  let _unknown_2 ← read_float
  let _level_random_type ← read_string
  pure ()

/-- The record built by file_parser.read_samp (stream flag and loop count
are read but not retained). -/
structure SampRec where
  obj_name : Bytes
  mode : Bytes
  path : FPath
  volume : Nat
  pitch : Nat
  pan : Nat
  offset : Nat
  channel_group : Bytes
deriving DecidableEq

/-- file_parser.read_samp. -/
def read_samp (nm : Bytes) : Rd SampRec := do
  let _sample_version ← read_int
  let _obj_version ← read_int
  let _components ← read_components
  let sample_play_mode ← read_string
  let fp ← read_file_path
  let _should_stream ← read_bool
  let _loop_count ← read_int
  let volume ← read_float
  let pitch ← read_float
  let pan ← read_float
  let offset ← read_float
  let channel_group ← read_string
  pure { obj_name := nm, mode := sample_play_mode, path := fp,
         volume := volume, pitch := pitch, pan := pan, offset := offset,
         channel_group := channel_group }

/-- The record built by file_parser.read_spn; the transform component's
record is splatted into it. -/
structure SpnRec where
  obj_name : Bytes
  xfm : CompVal
  objlib_path : FPath
  bucket : Bytes
deriving DecidableEq

/-- file_parser.read_spn.  The component list is destructured into exactly
two names (ValueError otherwise); splatting a None transform component at
the end raises TypeError. -/
def read_spn (nm : Bytes) : Rd SpnRec := do
  let _entity_spawner_version ← read_int
  let _obj_version ← read_int
  let comps ← read_components
  match comps with
  | [_edit_state_component, transform_component] => do
    let entity_objlib_fp ← read_file_path
    let render_bucket ← read_string
    if transform_component = CompVal.noneV then throwRd .typeError
    else
      pure { obj_name := nm, xfm := transform_component,
             objlib_path := entity_objlib_fp, bucket := render_bucket }
  | _ => throwRd .valueError

/-- file_parser.read_tex: a stub reader. -/
def read_tex (_nm : Bytes) : Rd Unit := do
  let _tex_2d_version ← read_int
  let _obj_version ← read_int
  let _components ← read_components
  let _compression ← read_string
  let _has_mips ← read_bool
  let _fp ← read_file_path
  pure ()

/-- file_parser.read_mat: a stub reader. -/
def read_mat (_nm : Bytes) : Rd Unit := do
  let _mat_version ← read_int
  let _obj_version ← read_int
  let _components ← read_components
  let _decal_map ← read_string
  let _emissive_map ← read_string
  let _reflection_map ← read_string
  let _blending ← read_string
  let _material_lighting ← read_int
  let _cull_mode ← read_string
  let _z_mode ← read_string
  let _unknown_1 ← read_bool
  let _unknown_2 ← read_bool
  let _material_filtering ← read_string
  let _emissive_color ← read_color
  let _ambient_color ← read_color
  let _diffuse_color ← read_color
  let _specular_color ← read_color
  let _reflectivity_color ← read_color
  let _alpha ← read_float
  let _unknown_3 ← read_float
  let _specular_map ← read_string
  let _texture_transform_mode ← read_string
  let _texture_transform ← read_transform
  let _unknown_4 ← read_float
  let _disable_noise_vignette ← read_bool
  let _noise_vignette_name ← read_string
  let _unknown_5 ← read_bool
  pure ()

/-- file_parser.read_mesh: a stub reader.  With inline mesh data it loops
over vertices (three vectors each) and faces (three read_short calls
each). -/
def read_mesh (_nm : Bytes) : Rd Unit := do
  let _mesh_version ← read_int
  let _obj_version ← read_int
  let _components ← read_components
  let _mat_object_name ← read_string
  let is_mesh_data_defined_in_object ← read_string
  if is_mesh_data_defined_in_object ≠ [] then do
    let num_vertices ← read_int
    let _ ← replicateP num_vertices.toNat (do
      let _vertex_position ← read_vector
      let _vertex_normal ← read_vector
      let _vertex_uvw ← read_vector
      (pure () : Rd Unit))
    let num_faces ← read_int
    let _ ← replicateP num_faces.toNat (do
      let _vertex_index_1 ← read_short
      let _vertex_index_2 ← read_short
      let _vertex_index_3 ← read_short
      (pure () : Rd Unit))
    let _unknown_1 ← read_bool
    let _unknown_2 ← read_bool
    pure ()
  else do
    let _fp ← read_file_path
    let _cache_name_param_1 ← read_int
    let _cache_name_param_2 ← read_int
    let _cache_name_param_3 ← read_int
    let _cache_name_param_4 ← read_bool
    let _cache_name_param_5 ← read_int
    pure ()

/-- file_parser.read_path: a stub reader with a decorator-name list. -/
def read_path (_nm : Bytes) : Rd Unit := do
  let _path_version ← read_int
  let _obj_version ← read_int
  let _components ← read_components
  let _tile_scale ← read_vector
  let _tile_size ← read_vector
  let _lane_spacing ← read_float
  let _mesh_object_name ← read_string
  let _does_bend ← read_bool
  let _bend_scale_interpolation ← read_string
  let _does_pulse_color ← read_bool
  let _does_pulse_scale ← read_bool
  let _v_scale ← read_float
  let num_path_decorators ← read_int
  let _ ← replicateP num_path_decorators.toNat read_string
  let _is_visible ← read_bool
  pure ()

/-- One tag per function name appearing as a value in the
file_parser.level_object_readers dictionary literal. -/
inductive RTag where
  | leaf | master | drawer | samp | lvl | spn | xfm | anim
  | mesh | path | mat | flow | gate | env | tex
deriving DecidableEq

/-- The result of a top-level object reader. -/
inductive ObjRes where
  | leaf (r : LeafRec)
  | master (r : MasterRec)
  | lvl (r : LvlRec)
  | samp (r : SampRec)
  | spn (r : SpnRec)
  | empty
deriving DecidableEq

/-- file_parser.level_object_readers: the TypeCode keys in source
dictionary order, each mapped to the tag of the function name the source
writes there.  (In Python the dictionary literal itself raises NameError,
because five of those names are never defined; see
file_parser_defined_functions below.) -/
def level_object_readers : List (String × RTag) :=
  [("ce7e85f6", .leaf), ("490780b9", .master), ("d3058b5d", .drawer),
   ("7aa8f390", .samp), ("bcd17473", .lvl), ("d897d5db", .spn),
   ("7d9db5ef", .xfm), ("5232f8f9", .anim), ("bf69f115", .mesh),
   ("4890a3f6", .path), ("7ba5c8e0", .mat), ("86621b1e", .flow),
   ("aa63a508", .gate), ("3bbcc4ec", .env), ("96ba8a70", .tex)]

/-- The same dictionary with the function names the source literally
writes as its values. -/
def level_object_reader_names : List (String × String) :=
  [("ce7e85f6", "read_leaf"), ("490780b9", "read_master"),
   ("d3058b5d", "read_drawer"), ("7aa8f390", "read_samp"),
   ("bcd17473", "read_lvl"), ("d897d5db", "read_spn"),
   ("7d9db5ef", "read_xfm"), ("5232f8f9", "read_anim"),
   ("bf69f115", "read_mesh"), ("4890a3f6", "read_path"),
   ("7ba5c8e0", "read_mat"), ("86621b1e", "read_flow"),
   ("aa63a508", "read_gate"), ("3bbcc4ec", "read_env"),
   ("96ba8a70", "read_tex")]

/-- Every function defined with def in src/file_parser.py. -/
def file_parser_defined_functions : List String :=
  ["read_int", "read_short", "read_float", "read_bool", "read_string",
   "read_hash", "read_vector", "read_color", "read_transform",
   "read_file_path", "read_animation_component", "read_edit_state_component",
   "read_approach_animation_component", "read_transform_component",
   "read_draw_component", "read_component", "read_components",
   "read_trait_path", "read_data_point", "read_data_points",
   "read_sequencer_object", "read_sequencer_objects", "read_leaf",
   "read_global_library", "read_global_libraries",
   "read_level_external_object", "read_level_external_objects",
   "read_lvl_grouping", "read_lvl_groupings", "read_master", "read_step",
   "read_steps", "read_loop", "read_loops", "read_lvl", "read_boss_pattern",
   "read_boss_patterns", "read_gate", "read_samp", "read_spn", "read_tex",
   "read_mat", "read_mesh", "read_path", "read_level_object_declaration",
   "read_level_object_declarations", "read_level_objlib",
   "read_objlib_file", "read_file", "format_fake_json", "main"]

/-- Dispatch from a registry tag to the reader it names.  The five names
that are never defined in the source are modelled as raising NameError
(in Python the failure already happens while the dictionary literal is
evaluated at import time). -/
def runReader : RTag → Bytes → Rd ObjRes
  | .leaf, nm => do let r ← read_leaf nm; pure (ObjRes.leaf r)
  | .master, nm => do let r ← read_master nm; pure (ObjRes.master r)
  | .drawer, _ => throwRd (.nameError "read_drawer")
  | .samp, nm => do let r ← read_samp nm; pure (ObjRes.samp r)
  | .lvl, nm => do let r ← read_lvl nm; pure (ObjRes.lvl r)
  | .spn, nm => do let r ← read_spn nm; pure (ObjRes.spn r)
  | .xfm, _ => throwRd (.nameError "read_xfm")
  | .anim, _ => throwRd (.nameError "read_anim")
  | .mesh, nm => do let _ ← read_mesh nm; pure ObjRes.empty
  | .path, nm => do let _ ← read_path nm; pure ObjRes.empty
  | .mat, nm => do let _ ← read_mat nm; pure ObjRes.empty
  | .flow, _ => throwRd (.nameError "read_flow")
  | .gate, nm => do let _ ← read_gate nm; pure ObjRes.empty
  | .env, _ => throwRd (.nameError "read_env")
  | .tex, nm => do let _ ← read_tex nm; pure ObjRes.empty

/-- file_parser.read_level_object_declaration: object name, then TypeCode,
then dictionary lookup (KeyError on a miss). -/
def read_level_object_declaration : Rd (Bytes × RTag) := do
  let object_name ← read_string
  let object_type ← read_hash
  match level_object_readers.lookup object_type with
  | none => throwRd (.keyError object_type)
  | some tag => pure (object_name, tag)

/-- file_parser.read_level_object_declarations: the count-prefixed
declaration table, read contiguously. -/
def read_level_object_declarations : Rd (List (Bytes × RTag)) := do
  let n ← read_int
  replicateP n.toNat read_level_object_declaration

/-- The final loop of file_parser.read_level_objlib: the matching reader is
invoked for each already-read declaration, in order, each result being
discarded. -/
def run_declarations : List (Bytes × RTag) → Rd Unit
  | [] => pure ()
  | d :: ds => do
    let _object ← runReader d.2 d.1
    run_declarations ds

/-- Lines 644 to 651 of file_parser.read_level_objlib: the four header
ints, the global-library list, the original path, the external-object
list, and then the whole declaration table. -/
def read_objlib_header_decls : Rd (List (Bytes × RTag)) := do
  let _unknown_1 ← read_int
  let _unknown_2 ← read_int
  let _unknown_3 ← read_int
  let _unknown_4 ← read_int
  let _global_libraries ← read_global_libraries
  let _original_file_path ← read_string
  let _external_objects ← read_level_external_objects
  read_level_object_declarations

/-- file_parser.read_level_objlib: header and full declaration table
first, then every object reader in declaration order. -/
def read_level_objlib : Rd Unit := do
  let object_declarations ← read_objlib_header_decls
  run_declarations object_declarations

/-- file_parser.objlib_readers. -/
def objlib_readers : List (String × Rd Unit) :=
  [("0b374d9e", read_level_objlib)]

/-- file_parser.read_objlib_file. -/
def read_objlib_file : Rd Unit := do
  let objlib_type ← read_hash
  match objlib_readers.lookup objlib_type with
  | none => throwRd (.keyError objlib_type)
  | some rdr => rdr

/-- file_parser.file_readers. -/
def file_readers : List (Int × Rd Unit) :=
  [(8, read_objlib_file)]

/-- file_parser.read_file. -/
def read_file : Rd Unit := do
  let file_type ← read_int
  match file_readers.lookup file_type with
  | none => throwRd (.keyErrorInt file_type)
  | some rdr => rdr

/-- Follows the words of claim C3, NOT the source: read one declaration
and invoke its Object Reader immediately, so that the next declaration's
name would be the next bytes after the previous object's payload. -/
def read_declaration_then_object : Rd Unit := do
  let (object_name, tag) ← read_level_object_declaration
  let _object ← runReader tag object_name
  pure ()

/-- Follows the words of claim C3, NOT the source: an object library body
whose declaration entries are interleaved with the object payloads. -/
def read_level_objlib_interleaved : Rd Unit := do
  let _unknown_1 ← read_int
  let _unknown_2 ← read_int
  let _unknown_3 ← read_int
  let _unknown_4 ← read_int
  let _global_libraries ← read_global_libraries
  let _original_file_path ← read_string
  let _external_objects ← read_level_external_objects
  let n ← read_int
  let _ ← replicateP n.toNat read_declaration_then_object
  pure ()

/-- The bytes consumed by each object reader when the declarations are
processed in order: entry i is the (integer) length difference across the
run of reader i, measured from where reader i-1 stopped. -/
def declConsumptions : List (Bytes × RTag) → Bytes → Option (List Int × Bytes)
  | [], buf => some ([], buf)
  | d :: ds, buf =>
    match runReader d.2 d.1 buf with
    | .error _ => none
    | .ok (_, mid) =>
      match declConsumptions ds mid with
      | none => none
      | some (cs, fin) =>
        some (((buf.length : Int) - (mid.length : Int)) :: cs, fin)

/-- leaf_parser.data_point_readers: same 20-entry table (read_rgba fills
the color slot). -/
def leaf_data_point_readers : List (Option (Rd DPVal)) :=
  [some (do let v ← read_int; pure (DPVal.i v)),
   some (do let v ← read_bool; pure (DPVal.b v)),
   some (do let v ← read_float; pure (DPVal.f v)),
   some (do let v ← read_color; pure (DPVal.c v.1 v.2.1 v.2.2.1 v.2.2.2)),
   none, none, none, none,
   some (do let v ← read_bool; pure (DPVal.b v)),
   none, none, none, none, none, none, none, none, none, none, none]

/-- leaf_parser.read_data_point: unlike the file_parser version there is
no None check, so the time float is read BEFORE the table entry is
called; a None entry then fails as a call of None (TypeError), and an
empty buffer fails with struct.error even for an unsupported trait
type. -/
def leaf_read_data_point (trait_type : Int) : Rd (Nat × DPVal) := fun buf =>
  match pyIndex leaf_data_point_readers trait_type with
  | none => .error .indexError
  | some rdrOpt =>
    (do
      let time ← read_float
      match rdrOpt with
      | none => throwRd .noneNotCallable
      | some rdr => do
        let v ← rdr
        let _interpolation_method ← read_string
        let _easing_method ← read_string
        pure (time, v) : Rd (Nat × DPVal)) buf

/-- leaf_parser.read_data_points. -/
def leaf_read_data_points (trait_type : Int) : Rd (List (Nat × DPVal)) := do
  let n ← read_int
  dict_points_loop (leaf_read_data_point trait_type) n.toNat []

/-- Python hex(n) without its 0x prefix: minimal lowercase hex digits (n
is below 2 to the 32 here, so eight nibbles with leading zeros
stripped). -/
def natToHexStr (n : Nat) : String :=
  let ds := [n / 268435456 % 16, n / 16777216 % 16, n / 1048576 % 16,
             n / 65536 % 16, n / 4096 % 16, n / 256 % 16, n / 16 % 16, n % 16]
  let ds' := ds.dropWhile (· == 0)
  if ds' = [] then "0" else String.mk (ds'.map hexDigitChar)

/-- thumper_sample_extractor.hash32: the content-hash mapping a logical
asset path to a cache file name.  Every intermediate is wrapped in
uint32(), modelled by reduction modulo 2 to the 32. -/
def hash32 (f : String) : String :=
  let g := "A" ++ f
  let h := g.toList.foldl
    (fun h c => ((h ^^^ c.toNat) % 4294967296 * 0x1000193) % 4294967296)
    0x811c9dc5
  let h1 := h * 0x2001 % 4294967296
  let h2 := (h1 ^^^ (h1 >>> 0x7)) % 4294967296 * 0x9 % 4294967296
  let h3 := (h2 ^^^ (h2 >>> 0x11)) % 4294967296 * 0x21 % 4294967296
  natToHexStr h3

/-- FNV-1a as the spec words it: initial value 0x811c9dc5, per character
XOR then multiply by 0x1000193, all modulo 2 to the 32. -/
def fnv1aFold (cs : List Nat) : Nat :=
  cs.foldl (fun h c => ((h ^^^ c) * 0x1000193) % 4294967296) 0x811c9dc5

/-- The finishing mix as the spec words it: multiply 0x2001; XOR with
right-shift 7 then multiply 9; XOR with right-shift 0x11 then multiply
0x21; all modulo 2 to the 32. -/
def finishMix (h : Nat) : Nat :=
  let h1 := (h * 0x2001) % 4294967296
  let h2 := ((h1 ^^^ (h1 >>> 7)) * 9) % 4294967296
  ((h2 ^^^ (h2 >>> 17)) * 33) % 4294967296

/-- The content-hash as the spec describes it: FNV-1a over the
A-prefixed path, then the finishing mix, rendered in lowercase hex. -/
def hash32_spec (f : String) : String :=
  natToHexStr (finishMix (fnv1aFold (('A' :: f.toList).map Char.toNat)))

/-- Lowercase hex digit test. -/
def isHexLower (c : Char) : Bool :=
  "0123456789abcdef".toList.contains c

/-- Two's-complement little-endian encoding of a 32-bit signed integer
(a fixture builder; the inverse of read_int on in-range values). -/
def encInt (r : Int) : Bytes :=
  [(r % 4294967296).toNat % 256,
   (r % 4294967296).toNat / 256 % 256,
   (r % 4294967296).toNat / 65536 % 256,
   (r % 4294967296).toNat / 16777216 % 256]

/-- Length-prefixed string encoding (a fixture builder; the inverse of
read_string on in-range valid payloads). -/
def encStr (bs : Bytes) : Bytes := encInt (bs.length : Int) ++ bs

/-! Helper lemmas about the primitive codec. -/

theorem read_int_truncated (buf : Bytes) (h : buf.length < 4) :
    read_int buf = .error .truncated := by
  unfold read_int
  rw [if_neg (by rw [List.length_take]; omega)]

theorem read_int_ok (buf : Bytes) (h : 4 ≤ buf.length) :
    read_int buf = .ok (intOfLe4 (buf.take 4), buf.drop 4) := by
  unfold read_int
  rw [if_pos (by rw [List.length_take]; omega)]

theorem read_float_truncated (buf : Bytes) (h : buf.length < 4) :
    read_float buf = .error .truncated := by
  unfold read_float
  rw [if_neg (by rw [List.length_take]; omega)]

theorem read_float_ok (buf : Bytes) (h : 4 ≤ buf.length) :
    read_float buf = .ok (leU (buf.take 4), buf.drop 4) := by
  unfold read_float
  rw [if_pos (by rw [List.length_take]; omega)]

theorem read_bool_truncated (buf : Bytes) (h : buf.length < 1) :
    read_bool buf = .error .truncated := by
  unfold read_bool
  rw [if_neg (by rw [List.length_take]; omega)]

theorem read_string_truncated (buf : Bytes) (h : buf.length < 4) :
    read_string buf = .error .truncated := by
  unfold read_string
  rw [bind_apply, read_int_truncated buf h]

theorem bind_err {α β : Type} (p : Rd α) (f : α → Rd β) (buf : Bytes) (e : Err)
    (h : p buf = .error e) : (p >>= f) buf = .error e := by
  rw [bind_apply, h]

theorem bind_ok {α β : Type} (p : Rd α) (f : α → Rd β) (buf : Bytes) (a : α)
    (rest : Bytes) (h : p buf = .ok (a, rest)) : (p >>= f) buf = f a rest := by
  rw [bind_apply, h]

theorem read_vector_truncated (buf : Bytes) (h : buf.length < 12) :
    read_vector buf = .error .truncated := by
  unfold read_vector
  by_cases h1 : buf.length < 4
  · exact bind_err _ _ _ _ (read_float_truncated buf h1)
  · rw [bind_ok _ _ _ _ _ (read_float_ok buf (by omega))]
    by_cases h2 : (buf.drop 4).length < 4
    · exact bind_err _ _ _ _ (read_float_truncated _ h2)
    · rw [bind_ok _ _ _ _ _ (read_float_ok _ (by omega))]
      exact bind_err _ _ _ _ (read_float_truncated _
        (by simp only [List.length_drop] at *; omega))

theorem read_vector_ok (buf : Bytes) (h : 12 ≤ buf.length) :
    ∃ v, read_vector buf = .ok (v, buf.drop 12) := by
  refine ⟨(leU (buf.take 4), leU ((buf.drop 4).take 4), leU ((buf.drop 8).take 4)), ?_⟩
  unfold read_vector
  rw [bind_ok _ _ _ _ _ (read_float_ok buf (by omega))]
  rw [bind_ok _ _ _ _ _ (read_float_ok _ (by simp only [List.length_drop]; omega))]
  rw [bind_ok _ _ _ _ _ (read_float_ok _
    (by simp only [List.length_drop, List.drop_drop] at *; omega))]
  simp [List.drop_drop]

theorem read_color_truncated (buf : Bytes) (h : buf.length < 16) :
    read_color buf = .error .truncated := by
  unfold read_color
  by_cases h1 : buf.length < 4
  · exact bind_err _ _ _ _ (read_float_truncated buf h1)
  · rw [bind_ok _ _ _ _ _ (read_float_ok buf (by omega))]
    by_cases h2 : (buf.drop 4).length < 4
    · exact bind_err _ _ _ _ (read_float_truncated _ h2)
    · rw [bind_ok _ _ _ _ _ (read_float_ok _ (by omega))]
      by_cases h3 : ((buf.drop 4).drop 4).length < 4
      · exact bind_err _ _ _ _ (read_float_truncated _ h3)
      · rw [bind_ok _ _ _ _ _ (read_float_ok _ (by omega))]
        exact bind_err _ _ _ _ (read_float_truncated _
          (by simp only [List.length_drop, List.drop_drop] at *; omega))

theorem read_transform_truncated (buf : Bytes) (h : buf.length < 60) :
    read_transform buf = .error .truncated := by
  unfold read_transform
  by_cases h1 : buf.length < 12
  · exact bind_err _ _ _ _ (read_vector_truncated buf h1)
  · obtain ⟨v1, hv1⟩ := read_vector_ok buf (by omega)
    rw [bind_ok _ _ _ _ _ hv1]
    by_cases h2 : (buf.drop 12).length < 12
    · exact bind_err _ _ _ _ (read_vector_truncated _ h2)
    · obtain ⟨v2, hv2⟩ := read_vector_ok _ (le_of_not_lt h2)
      rw [bind_ok _ _ _ _ _ hv2]
      by_cases h3 : ((buf.drop 12).drop 12).length < 12
      · exact bind_err _ _ _ _ (read_vector_truncated _ h3)
      · obtain ⟨v3, hv3⟩ := read_vector_ok _ (le_of_not_lt h3)
        rw [bind_ok _ _ _ _ _ hv3]
        by_cases h4 : (((buf.drop 12).drop 12).drop 12).length < 12
        · exact bind_err _ _ _ _ (read_vector_truncated _ h4)
        · obtain ⟨v4, hv4⟩ := read_vector_ok _ (le_of_not_lt h4)
          rw [bind_ok _ _ _ _ _ hv4]
          exact bind_err _ _ _ _ (read_vector_truncated _
            (by simp only [List.length_drop, List.drop_drop] at *; omega))

theorem read_file_path_truncated (buf : Bytes) (h : buf.length < 8) :
    read_file_path buf = .error .truncated := by
  unfold read_file_path
  by_cases h1 : buf.length < 4
  · exact bind_err _ _ _ _ (read_int_truncated buf h1)
  · rw [bind_ok _ _ _ _ _ (read_int_ok buf (by omega))]
    exact bind_err _ _ _ _ (read_string_truncated _
      (by simp only [List.length_drop]; omega))

/-- C1 counterexample: the hash primitive on the raw file-order bytes
0xce 0x7e 0x85 0xf6 does return the byte-reversed hex string "f6857ece",
but that string is NOT a key of level_object_readers, so the lookup the
claim describes raises KeyError instead of selecting the Leaf reader. -/
theorem c1_counterexample :
    read_hash [0xce, 0x7e, 0x85, 0xf6] = .ok ("f6857ece", []) ∧
    level_object_readers.lookup "f6857ece" = none := ⟨rfl, rfl⟩

/-- C1 (amended): read_hash on file bytes 0xce 0x7e 0x85 0xf6 yields
"f6857ece", which is unregistered; the Leaf reader is registered under the
TypeCode "ce7e85f6", which read_hash produces for the raw file bytes
0xf6 0x85 0x7e 0xce. -/
theorem c1_thm :
    read_hash [0xce, 0x7e, 0x85, 0xf6] = .ok ("f6857ece", []) ∧
    level_object_readers.lookup "f6857ece" = none ∧
    read_hash [0xf6, 0x85, 0x7e, 0xce] = .ok ("ce7e85f6", []) ∧
    level_object_readers.lookup "ce7e85f6" = some RTag.leaf :=
  ⟨rfl, rfl, rfl, rfl⟩

/-- C2: five of the function names written as values of the
level_object_readers dictionary literal (read_drawer, read_xfm, read_anim,
read_flow, read_env) are in the registry but are never defined in
src/file_parser.py, so evaluating the dictionary literal at module import
raises NameError and dispatch through it can never run. -/
theorem c2_thm :
    (["read_drawer", "read_xfm", "read_anim", "read_flow", "read_env"].all
      (fun n => (level_object_reader_names.map Prod.snd).contains n &&
        !(file_parser_defined_functions.contains n))) = true := by decide

/-- C6: read_mesh on a well-formed inline-mesh buffer with one face fails
with struct.error instead of consuming the face indices, because
read_short unpacks the two-byte format h from a four-byte file.read(4)
slice (struct.error: unpack requires a buffer of 2 bytes). -/
theorem c6_thm :
    read_mesh []
      ([0,0,0,0] ++ [0,0,0,0] ++ [0,0,0,0] ++ [0,0,0,0] ++
       [1,0,0,0,0x79] ++ [0,0,0,0] ++ [1,0,0,0] ++ [0,0,0,0]) =
      .error .truncated := rfl

/-- C4 counterexample: with fewer remaining bytes than the full width,
read_hash succeeds with a hash built from only two bytes, and read_string
(size prefix 5, two bytes remaining) succeeds with a silently shortened
string — neither fails with Truncated as the claim requires. -/
theorem c4_counterexample :
    read_hash [0xab, 0xcd] = .ok ("cdab", []) ∧
    read_string [5, 0, 0, 0, 97, 98] = .ok ([97, 98], []) := ⟨rfl, rfl⟩

/-- C4 (amended): the struct-based primitives (int32, float32, bool) and
their composites (vector3, color, transform, and file_path up to its two
leading ints) fail with Truncated when fewer bytes remain than their
width, and read_string fails with Truncated when its 4-byte size prefix is
itself truncated; but read_hash never fails (it hex-encodes whatever
bytes remain, even fewer than 4), and read_string silently returns the
available shortened payload when the size prefix exceeds the remaining
bytes. -/
theorem c4_thm :
    (∀ buf : Bytes, buf.length < 4 → read_int buf = .error .truncated) ∧
    (∀ buf : Bytes, buf.length < 4 → read_float buf = .error .truncated) ∧
    (∀ buf : Bytes, buf.length < 1 → read_bool buf = .error .truncated) ∧
    (∀ buf : Bytes, buf.length < 4 → read_string buf = .error .truncated) ∧
    (∀ buf : Bytes, buf.length < 12 → read_vector buf = .error .truncated) ∧
    (∀ buf : Bytes, buf.length < 16 → read_color buf = .error .truncated) ∧
    (∀ buf : Bytes, buf.length < 60 → read_transform buf = .error .truncated) ∧
    (∀ buf : Bytes, buf.length < 8 → read_file_path buf = .error .truncated) ∧
    (∀ buf : Bytes, ∃ s, read_hash buf = .ok (s, buf.drop 4)) ∧
    read_string [5, 0, 0, 0, 97, 98] = .ok ([97, 98], []) :=
  ⟨read_int_truncated, read_float_truncated, read_bool_truncated,
   read_string_truncated, read_vector_truncated, read_color_truncated,
   read_transform_truncated, read_file_path_truncated,
   fun _buf => ⟨_, rfl⟩, rfl⟩

/-- A 49-byte all-zero Samp object payload (versions 0, no components,
empty mode string, root 0 plus empty path, stream flag 0, loop count 0,
four zero floats, empty channel group). -/
def sampPayload : Bytes := List.replicate 49 0

/-- An object-library body with two Samp declarations named a and b (the
Samp TypeCode 7aa8f390 is stored in the file as bytes 90 f3 a8 7a),
followed by the two 49-byte Samp payloads. -/
def demoObjlib : Bytes :=
  [0, 0, 0, 0] ++ [0, 0, 0, 0] ++ [0, 0, 0, 0] ++ [0, 0, 0, 0] ++
  [0, 0, 0, 0] ++ [0, 0, 0, 0] ++ [0, 0, 0, 0] ++
  [2, 0, 0, 0] ++
  [1, 0, 0, 0, 97] ++ [0x90, 0xf3, 0xa8, 0x7a] ++
  [1, 0, 0, 0, 98] ++ [0x90, 0xf3, 0xa8, 0x7a] ++
  sampPayload ++ sampPayload

/-- C3 counterexample: on a concrete two-object library, the source's
read_level_objlib (which reads the WHOLE declaration table first and only
then runs the object readers) succeeds, while the behavior the claim
describes (invoke each object reader immediately after its declaration,
the next declaration name being the bytes after the previous payload)
fails — it misreads the second declaration's bytes as the first object's
payload and hits an unknown component hash.  So the two behaviors differ
on the code. -/
theorem c3_counterexample :
    read_level_objlib demoObjlib = .ok ((), []) ∧
    read_level_objlib_interleaved demoObjlib = .error (.keyError "00000000") :=
  ⟨rfl, rfl⟩

theorem run_declarations_consumption :
    ∀ (ds : List (Bytes × RTag)) (buf out : Bytes),
      run_declarations ds buf = .ok ((), out) →
      ∃ cs, declConsumptions ds buf = some (cs, out) ∧
        (buf.length : Int) - (out.length : Int) = cs.sum := by
  intro ds
  induction ds with
  | nil =>
    intro buf out h
    simp only [run_declarations, pure_apply, Except.ok.injEq, Prod.mk.injEq,
      true_and] at h
    subst h
    exact ⟨[], rfl, by simp⟩
  | cons d ds ih =>
    intro buf out h
    simp only [run_declarations] at h
    cases hr : runReader d.2 d.1 buf with
    | error e => rw [bind_err _ _ _ _ hr] at h; exact absurd h (by simp)
    | ok p =>
      obtain ⟨o, mid⟩ := p
      rw [bind_ok _ _ _ _ _ hr] at h
      obtain ⟨cs, hc, hs⟩ := ih mid out h
      refine ⟨((buf.length : Int) - (mid.length : Int)) :: cs, ?_, ?_⟩
      · unfold declConsumptions
        simp only [hr, hc]
      · rw [List.sum_cons]
        omega

/-- C3 (amended): read_level_objlib reads the header and the ENTIRE
declaration table first and only then invokes the Object Readers, in
declaration order; when the run succeeds, each object's reader starts
exactly where the previous reader stopped, and the total bytes consumed
by the object section equal the sum of the bytes consumed per object. -/
theorem c3_thm :
    (∀ buf out, read_level_objlib buf = .ok ((), out) →
      ∃ ds mid, read_objlib_header_decls buf = .ok (ds, mid) ∧
        run_declarations ds mid = .ok ((), out)) ∧
    (∀ (ds : List (Bytes × RTag)) (buf out : Bytes),
      run_declarations ds buf = .ok ((), out) →
      ∃ cs, declConsumptions ds buf = some (cs, out) ∧
        (buf.length : Int) - (out.length : Int) = cs.sum) := by
  constructor
  · intro buf out h
    unfold read_level_objlib at h
    cases hh : read_objlib_header_decls buf with
    | error e => rw [bind_err _ _ _ _ hh] at h; exact absurd h (by simp)
    | ok p =>
      obtain ⟨ds, mid⟩ := p
      rw [bind_ok _ _ _ _ _ hh] at h
      exact ⟨ds, mid, rfl, h⟩
  · exact run_declarations_consumption

/-- C3 witness: the per-object consumption sum at a concrete one-Samp
declaration list over its 49-byte payload. -/
theorem c3_witness :
    ∃ cs, declConsumptions [(asciiBytes "a", RTag.samp)] sampPayload =
        some (cs, []) ∧
      ((sampPayload.length : Int) - (([] : Bytes).length : Int) = cs.sum) :=
  c3_thm.2 [(asciiBytes "a", RTag.samp)] sampPayload [] rfl

/-- C5 counterexample: in leaf_parser, read_data_point with the
unsupported trait type 4 on an empty buffer fails with Truncated
(struct.error from the time-float read, which happens BEFORE the table
entry is called), not with the UnsupportedTraitType error, so the claim
does not hold for both parser modules. -/
theorem c5_counterexample :
    leaf_read_data_point 4 [] = .error .truncated := rfl

/-- C5 (amended): in file_parser, read_data_point consults the reader
table before reading any byte, so for EVERY cursor state and every trait
type whose table entry is None (including 4, kTraitObj) it fails with the
UnsupportedTraitType error, never with Truncated and never with a value;
leaf_parser's read_data_point instead reads the time float first and so
can fail with Truncated on a short buffer (and otherwise fails by calling
None). -/
theorem c5_thm :
    ∀ (trait_type : Int) (buf : Bytes),
      pyIndex data_point_readers trait_type = some none →
      read_data_point trait_type buf = .error (.unsupportedTraitType trait_type) := by
  intro tt buf h
  unfold read_data_point
  rw [h]

/-- C5 witness: trait type 4 (kTraitObj) on a nonempty buffer. -/
theorem c5_witness :
    read_data_point 4 [7, 7, 7, 7] = .error (.unsupportedTraitType 4) :=
  c5_thm 4 [7, 7, 7, 7] rfl

theorem dict_points_loop_eq (p : Rd (Nat × DPVal)) :
    ∀ (n : Nat) (acc : List (Nat × DPVal)) (buf : Bytes),
      dict_points_loop p n acc buf =
        match replicateP n p buf with
        | .error e => .error e
        | .ok (pts, rest) =>
          .ok (pts.foldl (fun d q => dictInsert d q.1 q.2) acc, rest) := by
  intro n
  induction n with
  | zero => intro acc buf; simp [dict_points_loop, replicateP]
  | succ n ih =>
    intro acc buf
    unfold dict_points_loop replicateP
    cases hp : p buf with
    | error e =>
      rw [bind_err _ _ _ _ hp, bind_err _ _ _ _ hp]
    | ok q =>
      obtain ⟨dp, mid⟩ := q
      rw [bind_ok _ _ _ _ _ hp, bind_ok _ _ _ _ _ hp]
      rw [ih]
      cases hr : replicateP n p mid with
      | error e => rw [bind_err _ _ _ _ hr]
      | ok pr =>
        obtain ⟨pts, rest⟩ := pr
        rw [bind_ok _ _ _ _ _ hr]
        simp

theorem pyFloatEq_symm_true {a b : Nat} (h : pyFloatEq a b = true) :
    pyFloatEq b a = true := by
  simp only [pyFloatEq, Bool.and_eq_true, Bool.or_eq_true, Bool.not_eq_true',
    beq_iff_eq] at h ⊢
  obtain ⟨⟨hna, hnb⟩, hd⟩ := h
  refine ⟨⟨hnb, hna⟩, ?_⟩
  rcases hd with rfl | ⟨hza, hzb⟩
  · exact Or.inl rfl
  · exact Or.inr ⟨hzb, hza⟩

theorem pyFloatEq_trans {a b c : Nat} (h1 : pyFloatEq a b = true)
    (h2 : pyFloatEq b c = true) : pyFloatEq a c = true := by
  simp only [pyFloatEq, Bool.and_eq_true, Bool.or_eq_true, Bool.not_eq_true',
    beq_iff_eq] at h1 h2 ⊢
  obtain ⟨⟨hna, hnb⟩, h1d⟩ := h1
  obtain ⟨⟨hnb', hnc⟩, h2d⟩ := h2
  refine ⟨⟨hna, hnc⟩, ?_⟩
  rcases h1d with rfl | ⟨hza, hzb⟩
  · exact h2d
  · rcases h2d with rfl | ⟨hzb2, hzc⟩
    · exact Or.inr ⟨hza, hzb⟩
    · exact Or.inr ⟨hza, hzc⟩

theorem dictLookup_insert (d : List (Nat × DPVal)) (t k : Nat) (v : DPVal) :
    dictLookup (dictInsert d t v) k =
      if pyFloatEq t k then some v else dictLookup d k := by
  induction d with
  | nil =>
    cases h : pyFloatEq t k <;> simp [dictInsert, dictLookup, h]
  | cons p ps ih =>
    cases hpt : pyFloatEq p.1 t with
    | true =>
      cases htk : pyFloatEq t k with
      | true =>
        have hpk : pyFloatEq p.1 k = true := pyFloatEq_trans hpt htk
        simp [dictInsert, dictLookup, hpt, htk, hpk]
      | false =>
        have hpk : pyFloatEq p.1 k = false := by
          cases hq : pyFloatEq p.1 k with
          | false => rfl
          | true =>
            have h1 : pyFloatEq t p.1 = true := pyFloatEq_symm_true hpt
            have h2 := pyFloatEq_trans h1 hq
            rw [h2] at htk
            simp at htk
        simp [dictInsert, dictLookup, hpt, htk, hpk]
    | false =>
      cases hpk : pyFloatEq p.1 k with
      | true =>
        have htk : pyFloatEq t k = false := by
          cases hq : pyFloatEq t k with
          | false => rfl
          | true =>
            have h1 : pyFloatEq k t = true := pyFloatEq_symm_true hq
            have h2 := pyFloatEq_trans hpk h1
            rw [h2] at hpt
            simp at hpt
        simp [dictInsert, dictLookup, hpt, htk, hpk]
      | false =>
        simp [dictInsert, dictLookup, hpt, hpk, ih]

theorem foldl_ins_lookup (pts : List (Nat × DPVal)) :
    ∀ (acc : List (Nat × DPVal)) (k : Nat),
      dictLookup (pts.foldl (fun d q => dictInsert d q.1 q.2) acc) k =
        match pts.reverse.find? (fun q => pyFloatEq q.1 k) with
        | some q => some q.2
        | none => dictLookup acc k := by
  induction pts with
  | nil => intro acc k; simp
  | cons q pts ih =>
    intro acc k
    simp only [List.foldl_cons, List.reverse_cons]
    rw [ih, List.find?_append]
    cases hf : pts.reverse.find? (fun q => pyFloatEq q.1 k) with
    | some q' => simp [Option.orElse]
    | none =>
      simp only [Option.orElse, Option.none_orElse]
      rw [dictLookup_insert]
      cases hq : pyFloatEq q.1 k with
      | true => simp [List.find?, hq]
      | false => simp [List.find?, hq]

/-- C7: read_data_points (time-keyed dict build) is last-write-wins under
Python float equality of times: it returns the fold of Python dict
insertion over the parsed data-point stream, and the value stored under
any time key is the one carried by the LAST data point in stream order
bearing a time == that key (none if no point bears it — in particular a
NaN time key, which no float equals, is never found). -/
theorem c7_thm :
    ∀ (trait_type : Int) (buf rest0 rest : Bytes) (n : Int)
      (pts : List (Nat × DPVal)),
      read_int buf = .ok (n, rest0) →
      replicateP n.toNat (read_data_point trait_type) rest0 = .ok (pts, rest) →
      read_data_points trait_type buf =
        .ok (pts.foldl (fun d q => dictInsert d q.1 q.2) [], rest) ∧
      ∀ k, dictLookup (pts.foldl (fun d q => dictInsert d q.1 q.2) []) k =
        match pts.reverse.find? (fun q => pyFloatEq q.1 k) with
        | some q => some q.2
        | none => none := by
  intro tt buf rest0 rest n pts h1 h2
  constructor
  · unfold read_data_points
    rw [bind_ok _ _ _ _ _ h1, dict_points_loop_eq, h2]
  · intro k
    rw [foldl_ins_lookup]
    rfl

/-- C7 witness: a stream of two Int data points, both at time 1.0 (float
bits 0x3f800000), with values 3 then 7: the resulting mapping is exactly
the single entry 1.0 to 7, and the lookup at 1.0 gives 7.  Two fidelity
checks of the float-keyed dict follow: times +0.0 then -0.0 merge into
ONE entry (the original +0.0 key object is kept, value overwritten, as
in CPython), while two bit-identical NaN times (0x7fc00000) stay TWO
distinct entries because NaN equals nothing. -/
theorem c7_witness :
    read_data_points 0
        ([2,0,0,0] ++ [0,0,0x80,0x3f] ++ [3,0,0,0] ++ [0,0,0,0] ++ [0,0,0,0] ++
         [0,0,0x80,0x3f] ++ [7,0,0,0] ++ [0,0,0,0] ++ [0,0,0,0]) =
      .ok ([(0x3f800000, DPVal.i 7)], []) ∧
    dictLookup [(0x3f800000, DPVal.i 7)] 0x3f800000 = some (DPVal.i 7) ∧
    read_data_points 0
        ([2,0,0,0] ++ [0,0,0,0] ++ [5,0,0,0] ++ [0,0,0,0] ++ [0,0,0,0] ++
         [0,0,0,0x80] ++ [9,0,0,0] ++ [0,0,0,0] ++ [0,0,0,0]) =
      .ok ([(0x00000000, DPVal.i 9)], []) ∧
    read_data_points 0
        ([2,0,0,0] ++ [0,0,0xc0,0x7f] ++ [1,0,0,0] ++ [0,0,0,0] ++ [0,0,0,0] ++
         [0,0,0xc0,0x7f] ++ [2,0,0,0] ++ [0,0,0,0] ++ [0,0,0,0]) =
      .ok ([(0x7fc00000, DPVal.i 1), (0x7fc00000, DPVal.i 2)], []) := by
  have h := c7_thm 0
    ([2,0,0,0] ++ [0,0,0x80,0x3f] ++ [3,0,0,0] ++ [0,0,0,0] ++ [0,0,0,0] ++
     [0,0,0x80,0x3f] ++ [7,0,0,0] ++ [0,0,0,0] ++ [0,0,0,0])
    ([0,0,0x80,0x3f] ++ [3,0,0,0] ++ [0,0,0,0] ++ [0,0,0,0] ++
     [0,0,0x80,0x3f] ++ [7,0,0,0] ++ [0,0,0,0] ++ [0,0,0,0])
    [] 2 [(0x3f800000, DPVal.i 3), (0x3f800000, DPVal.i 7)] (by rfl) (by rfl)
  exact ⟨h.1.trans (by rfl), by rfl, by rfl, by rfl⟩

theorem read_int_encInt (r : Int) (t : Bytes)
    (h1 : -2147483648 ≤ r) (h2 : r < 2147483648) :
    read_int (encInt r ++ t) = .ok (r, t) := by
  unfold encInt read_int
  simp only [List.cons_append, List.nil_append, List.take_succ_cons,
    List.take_zero, List.drop_succ_cons, List.drop_zero, List.length_cons,
    List.length_nil]
  rw [if_true]
  unfold intOfLe4 leU
  simp only [List.foldr_cons, List.foldr_nil]
  have hmod : (0 : Int) ≤ r % 4294967296 ∧ r % 4294967296 < 4294967296 := by
    constructor
    · exact Int.emod_nonneg r (by norm_num)
    · exact Int.emod_lt_of_pos r (by norm_num)
  have hval : ((r % 4294967296).toNat % 256 + 256 * ((r % 4294967296).toNat / 256 % 256 +
      256 * ((r % 4294967296).toNat / 65536 % 256 +
        256 * ((r % 4294967296).toNat / 16777216 % 256 + 256 * 0)))) =
      (r % 4294967296).toNat := by
    omega
  rw [hval]
  have hok : (if (r % 4294967296).toNat < 2147483648 then
      (((r % 4294967296).toNat : Nat) : Int)
    else (((r % 4294967296).toNat : Nat) : Int) - 4294967296) = r := by
    split <;> omega
  rw [hok]

theorem read_string_encStr (bs t : Bytes)
    (hlen : (bs.length : Int) < 2147483648) (hv : utf8Valid bs = true) :
    read_string (encStr bs ++ t) = .ok (bs, t) := by
  unfold read_string encStr
  rw [List.append_assoc]
  rw [bind_ok _ _ _ _ _ (read_int_encInt (bs.length : Int) (bs ++ t) (by omega) hlen)]
  have hpy : pyRead ((bs.length : Nat) : Int) (bs ++ t) = .ok (bs, t) := by
    unfold pyRead
    rw [if_neg (by omega), if_neg (by omega)]
    simp [List.take_left, List.drop_left]
  rw [bind_ok _ _ _ _ _ hpy, hv]
  rfl

/-- C8: read_file_path reads an int32 root index then a string; with root
index 0 the result is the bare string, and with any nonzero root index r
it is the pair of r and the string. -/
theorem c8_thm :
    ∀ (r : Int) (bs t : Bytes),
      -2147483648 ≤ r → r < 2147483648 →
      (bs.length : Int) < 2147483648 → utf8Valid bs = true →
      read_file_path (encInt r ++ (encStr bs ++ t)) =
        .ok (if r = 0 then FPath.bare bs else FPath.rooted r bs, t) := by
  intro r bs t h1 h2 h3 h4
  unfold read_file_path
  rw [bind_ok _ _ _ _ _ (read_int_encInt r (encStr bs ++ t) h1 h2)]
  rw [bind_ok _ _ _ _ _ (read_string_encStr bs t h3 h4)]
  rfl

/-- C8 witness: root index 0 with "foo.mesh" gives the bare string;
root index 2 with the same string gives the pair. -/
theorem c8_witness :
    read_file_path (encInt 0 ++ (encStr (asciiBytes "foo.mesh") ++ [])) =
      .ok (FPath.bare (asciiBytes "foo.mesh"), []) ∧
    read_file_path (encInt 2 ++ (encStr (asciiBytes "foo.mesh") ++ [])) =
      .ok (FPath.rooted 2 (asciiBytes "foo.mesh"), []) := by
  constructor
  · have h := c8_thm 0 (asciiBytes "foo.mesh") [] (by norm_num) (by norm_num)
      (by norm_num [asciiBytes]) (by rfl)
    simpa using h
  · have h := c8_thm 2 (asciiBytes "foo.mesh") [] (by norm_num) (by norm_num)
      (by norm_num [asciiBytes]) (by rfl)
    simpa using h

theorem all_hex_of_lt (l : List Nat) (h : ∀ m ∈ l, m < 16) :
    ((String.mk (l.map hexDigitChar)).toList.all isHexLower) = true := by
  have hd : ∀ k, k < 16 → isHexLower (hexDigitChar k) = true := by decide
  rw [List.all_eq_true]
  intro c hc
  have hc' : c ∈ l.map hexDigitChar := hc
  obtain ⟨m, hm, rfl⟩ := List.mem_map.mp hc'
  exact hd m (h m hm)

theorem natToHexStr_all_hex (n : Nat) :
    ((natToHexStr n).toList.all isHexLower) = true := by
  simp only [natToHexStr]
  split
  · decide
  · apply all_hex_of_lt
    intro m hm
    have hsub : m ∈ [n / 268435456 % 16, n / 16777216 % 16, n / 1048576 % 16,
        n / 65536 % 16, n / 4096 % 16, n / 256 % 16, n / 16 % 16, n % 16] :=
      (List.dropWhile_sublist _).subset hm
    simp only [List.mem_cons, List.not_mem_nil, or_false] at hsub
    rcases hsub with h | h | h | h | h | h | h | h <;>
      (subst h; exact Nat.mod_lt _ (by norm_num))

/-- C9: hash32 is the pure deterministic FNV-1a-style content hash the
spec describes: over the A-prefixed path it iterates XOR-then-multiply by
0x1000193 from 0x811c9dc5 modulo 2 to the 32, applies the fixed finishing
mix (multiply 0x2001; XOR right-shift 7 then multiply 9; XOR right-shift
0x11 then multiply 0x21), and renders the result as a lowercase hex
string. -/
theorem c9_thm : ∀ f : String,
    hash32 f = hash32_spec f ∧ ((hash32 f).toList.all isHexLower) = true := by
  intro f
  have hfold : ("A" ++ f).toList.foldl
      (fun h c => ((h ^^^ c.toNat) % 4294967296 * 0x1000193) % 4294967296)
      0x811c9dc5 = fnv1aFold (('A' :: f.toList).map Char.toNat) := by
    unfold fnv1aFold
    rw [List.foldl_map]
    have hg : ("A" ++ f).toList = 'A' :: f.toList := by
      show ("A" ++ f).data = 'A' :: f.data
      rw [String.data_append]
      rfl
    rw [hg]
    apply List.foldl_ext
    intro h c _
    rw [Nat.mod_mul_mod]
  constructor
  · simp only [hash32, hash32_spec, finishMix]
    rw [hfold]
    rw [Nat.mod_mul_mod, Nat.mod_mul_mod]
  · show ((natToHexStr _).toList.all isHexLower) = true
    exact natToHexStr_all_hex _

theorem read_step_nonempty (buf rest1 : Bytes) (s : Bytes)
    (hS : read_string buf = .ok (s, rest1)) (hs : s ≠ []) :
    read_step buf =
      match read_step_tail rest1 with
      | .ok _ => .error (.unboundLocal "num_beats")
      | .error e => .error e := by
  have hloc : read_step_locals buf = .ok ((none, none, none, none), rest1) := by
    unfold read_step_locals
    rw [bind_ok _ _ _ _ _ hS, if_neg hs]
    rfl
  unfold read_step
  rw [bind_ok _ _ _ _ _ hloc]
  dsimp only
  cases ht : read_step_tail rest1 with
  | error e => rw [bind_err _ _ _ _ ht]
  | ok tup =>
    obtain ⟨v, rest2⟩ := tup
    rw [bind_ok _ _ _ _ _ ht]
    rfl

theorem read_step_skip (buf rest1 rest2 rest3 : Bytes) (nb : Int)
    (hS : read_string buf = .ok ([], rest1))
    (hI : read_int rest1 = .ok (nb, rest2))
    (hB : read_bool rest2 = .ok (true, rest3)) :
    read_step buf =
      match ((do
          let _ ← read_step_skip_rest
          read_step_tail) : Rd (Bytes × Int × Transform × Bool × Bool)) rest3 with
      | .ok _ => .error (.unboundLocal "sequin")
      | .error e => .error e := by
  cases hsk : read_step_skip_rest rest3 with
  | error e =>
    have hloc : read_step_locals buf = .error e := by
      unfold read_step_locals
      rw [bind_ok _ _ _ _ _ hS, if_pos rfl]
      rw [bind_ok _ _ _ _ _ hI]
      rw [bind_ok _ _ _ _ _ hB, if_pos rfl]
      exact bind_err _ _ _ _ hsk
    unfold read_step
    rw [bind_err _ _ _ _ hloc, bind_err _ _ _ _ hsk]
  | ok pr =>
    obtain ⟨⟨u2, sps⟩, rest4⟩ := pr
    have hloc : read_step_locals buf =
        .ok ((some nb, none, some u2, some sps), rest4) := by
      unfold read_step_locals
      rw [bind_ok _ _ _ _ _ hS, if_pos rfl]
      rw [bind_ok _ _ _ _ _ hI]
      rw [bind_ok _ _ _ _ _ hB, if_pos rfl]
      rw [bind_ok _ _ _ _ _ hsk]
      rfl
    unfold read_step
    rw [bind_ok _ _ _ _ _ hloc]
    dsimp only
    rw [bind_ok _ _ _ _ _ hsk]
    cases ht : read_step_tail rest4 with
    | error e => rw [bind_err _ _ _ _ ht]
    | ok tup =>
      obtain ⟨v, rest5⟩ := tup
      rw [bind_ok _ _ _ _ _ ht]
      rfl

theorem read_step_ok_shape (buf rest : Bytes) (r : StepRec)
    (h : read_step buf = .ok (r, rest)) :
    ∃ rest1 nb rest2 rest3, read_string buf = .ok ([], rest1) ∧
      read_int rest1 = .ok (nb, rest2) ∧ read_bool rest2 = .ok (false, rest3) := by
  cases hS : read_string buf with
  | error e =>
    have hst : read_step buf = .error e := by
      have hloc : read_step_locals buf = .error e := by
        unfold read_step_locals
        exact bind_err _ _ _ _ hS
      unfold read_step
      exact bind_err _ _ _ _ hloc
    rw [hst] at h
    exact absurd h (by simp)
  | ok p =>
    obtain ⟨s, rest1⟩ := p
    by_cases hs : s = []
    · subst hs
      cases hI : read_int rest1 with
      | error e =>
        have hst : read_step buf = .error e := by
          have hloc : read_step_locals buf = .error e := by
            unfold read_step_locals
            rw [bind_ok _ _ _ _ _ hS, if_pos rfl]
            exact bind_err _ _ _ _ hI
          unfold read_step
          exact bind_err _ _ _ _ hloc
        rw [hst] at h
        exact absurd h (by simp)
      | ok q =>
        obtain ⟨nb, rest2⟩ := q
        cases hB : read_bool rest2 with
        | error e =>
          have hst : read_step buf = .error e := by
            have hloc : read_step_locals buf = .error e := by
              unfold read_step_locals
              rw [bind_ok _ _ _ _ _ hS, if_pos rfl]
              rw [bind_ok _ _ _ _ _ hI]
              exact bind_err _ _ _ _ hB
            unfold read_step
            exact bind_err _ _ _ _ hloc
          rw [hst] at h
          exact absurd h (by simp)
        | ok b3 =>
          obtain ⟨b, rest3⟩ := b3
          cases b with
          | true =>
            have hred := read_step_skip buf rest1 rest2 rest3 nb hS hI hB
            rw [hred] at h
            cases hsk2 : ((do
                let _ ← read_step_skip_rest
                read_step_tail) : Rd (Bytes × Int × Transform × Bool × Bool)) rest3 with
            | error e => rw [hsk2] at h; exact absurd h (by simp)
            | ok w => rw [hsk2] at h; exact absurd h (by simp)
          | false =>
            exact ⟨rest1, nb, rest2, rest3, by simp [hS], by simp [hI], by simp [hB]⟩
    · have hred := read_step_nonempty buf rest1 s hS hs
      rw [hred] at h
      cases ht : read_step_tail rest1 with
      | error e => rw [ht] at h; exact absurd h (by simp)
      | ok w => rw [ht] at h; exact absurd h (by simp)

theorem read_steps_propagates (buf rest1 : Bytes) (e : Err)
    (hb : read_bool buf = .ok (true, rest1)) (hstep : read_step rest1 = .error e) :
    read_steps buf = .error e := by
  unfold read_steps read_stepsF
  rw [bind_ok _ _ _ _ _ hb, if_pos rfl]
  exact bind_err _ _ _ _ hstep

/-- C10: read_step builds its record only when the leading string is empty
and the skip-sequin flag is false; with a non-empty leading string the
locals are never assigned and (once the unconditional tail reads succeed)
the record construction fails with UnboundLocalError on num_beats; with an
empty leading string but the skip flag true it fails with
UnboundLocalError on sequin; and a read_steps loop reaching such a step
propagates that failure. -/
theorem c10_thm :
    (∀ (buf rest : Bytes) (r : StepRec), read_step buf = .ok (r, rest) →
      ∃ rest1 nb rest2 rest3, read_string buf = .ok ([], rest1) ∧
        read_int rest1 = .ok (nb, rest2) ∧ read_bool rest2 = .ok (false, rest3)) ∧
    (∀ (buf rest1 : Bytes) (s : Bytes),
      read_string buf = .ok (s, rest1) → s ≠ [] →
      read_step buf =
        match read_step_tail rest1 with
        | .ok _ => .error (.unboundLocal "num_beats")
        | .error e => .error e) ∧
    (∀ (buf rest1 rest2 rest3 : Bytes) (nb : Int),
      read_string buf = .ok ([], rest1) → read_int rest1 = .ok (nb, rest2) →
      read_bool rest2 = .ok (true, rest3) →
      read_step buf =
        match ((do
            let _ ← read_step_skip_rest
            read_step_tail) : Rd (Bytes × Int × Transform × Bool × Bool)) rest3 with
        | .ok _ => .error (.unboundLocal "sequin")
        | .error e => .error e) ∧
    (∀ (buf rest1 : Bytes) (e : Err), read_bool buf = .ok (true, rest1) →
      read_step rest1 = .error e → read_steps buf = .error e) :=
  ⟨fun buf rest r h => read_step_ok_shape buf rest r h,
   fun buf rest1 s hS hs => read_step_nonempty buf rest1 s hS hs,
   fun buf rest1 rest2 rest3 nb hS hI hB => read_step_skip buf rest1 rest2 rest3 nb hS hI hB,
   fun buf rest1 e hb hstep => read_steps_propagates buf rest1 e hb hstep⟩

/-- The well-formed unconditional tail of a step: empty step-type string,
offset 0, a 60-byte transform, two bools. -/
def stepTailBytes : Bytes := [0, 0, 0, 0] ++ [0, 0, 0, 0] ++ List.replicate 60 0 ++ [0, 0]

/-- A step whose leading string is the non-empty "x", followed by a
well-formed tail. -/
def stepBadBuf : Bytes := encStr (asciiBytes "x") ++ stepTailBytes

/-- C10 witness: on the concrete non-empty-leading-string step buffer,
read_step fails with UnboundLocalError on num_beats, and read_steps on the
same buffer prefixed with a continue byte propagates that failure. -/
theorem c10_witness :
    read_step stepBadBuf = .error (.unboundLocal "num_beats") ∧
    read_steps (1 :: stepBadBuf) = .error (.unboundLocal "num_beats") := by
  have h2 := c10_thm.2.1 stepBadBuf stepTailBytes (asciiBytes "x") (by rfl) (by decide)
  have hstep : read_step stepBadBuf = .error (.unboundLocal "num_beats") := by
    rw [h2]
    rfl
  exact ⟨hstep, c10_thm.2.2.2 (1 :: stepBadBuf) stepBadBuf _ (by rfl) hstep⟩

/-- C4 witness: the amended truncation behavior at concrete short
buffers. -/
theorem c4_witness :
    read_int [1, 2, 3] = .error .truncated ∧
    read_float [1] = .error .truncated ∧
    read_bool [] = .error .truncated ∧
    read_string [1, 0] = .error .truncated ∧
    read_vector (List.replicate 11 0) = .error .truncated ∧
    read_color (List.replicate 15 0) = .error .truncated ∧
    read_transform (List.replicate 59 0) = .error .truncated ∧
    read_file_path (List.replicate 7 0) = .error .truncated ∧
    (∃ s, read_hash [0xab] = .ok (s, [])) :=
  ⟨c4_thm.1 _ (by decide), c4_thm.2.1 _ (by decide), c4_thm.2.2.1 _ (by decide),
   c4_thm.2.2.2.1 _ (by decide), c4_thm.2.2.2.2.1 _ (by decide),
   c4_thm.2.2.2.2.2.1 _ (by decide), c4_thm.2.2.2.2.2.2.1 _ (by decide),
   c4_thm.2.2.2.2.2.2.2.1 _ (by decide), c4_thm.2.2.2.2.2.2.2.2.1 [0xab]⟩
